import Mathlib

/-!
# The `VirtualCamera` wrapper of `src/ext/camera_module`

A shallow embedding of `camera_module.h` / `camera_module.cpp`.

* The native vision library (`cv::VideoCapture`, `cv::Mat`) is not part of the
  repository; it is a parameter `Native H F` of every definition.
* The `cv::VideoCapture` object allocated by `new` lives in a heap cell.  The
  cell remembers whether it has been freed by `delete` and records, in order,
  the native calls made through the pointer `camera`.
* A method that dereferences `camera` after `delete camera` has no defined
  behaviour in C++; the embedding returns `Fault.useAfterFree` there.
* The destructor ends the object.  `Lifetime` is the owner's view: a member
  call on a destroyed object is `Fault.useAfterFree` as well.
* The host (CPython) argument parser and allocator are parameters of
  `VirtualCamera_new`.
* The binding functions declare `self` as `VirtualCamera*` and store
  `new VirtualCamera(camera_id)` in `self->camera`; they are read the only way
  their calls `self->camera->isOpened()` and `self->camera->captureFrame()`
  make sense: the host object has one field `camera` that points to the wrapped
  `VirtualCamera`.
-/

namespace CameraModule

/-! ## The native library boundary -/

/-- Services of the native vision library that the wrapper calls, over a native
capture state `H` (`cv::VideoCapture`) and a frame type `F` (`cv::Mat`). -/
structure Native (H F : Type) where
  /-- The constructor `cv::VideoCapture(int)`: tries to acquire the device. -/
  openDevice : Int → H
  /-- The query `cv::VideoCapture::isOpened()`. -/
  isOpened : H → Bool
  /-- The stream operator `capture >> frame`: the frame written into the
  argument, and the capture state afterwards. -/
  read : H → F → F × H
  /-- The call `cv::VideoCapture::release()`. -/
  release : H → H
  /-- A default-constructed `cv::Mat`. -/
  emptyMat : F
  /-- The query `cv::Mat::empty()`. -/
  empty : F → Bool

/-- A native call made through the pointer `camera`. -/
inductive NativeCall where
  | construct (camera_id : Int)
  | isOpened
  | read
  | release
  | destroy
  deriving DecidableEq

/-- The only way a method of the wrapper can go wrong: dereferencing `camera`
after `delete camera`. -/
inductive Fault where
  | useAfterFree
  deriving DecidableEq

/-- The heap cell behind `cv::VideoCapture* camera`: its content (`none` once
`delete camera` has run) and the native calls made on it so far. -/
structure Cell (H : Type) where
  live : Option H
  calls : List NativeCall
  deriving DecidableEq

/-! ## `class VirtualCamera` -/

/-- The two data members of `class VirtualCamera` (camera_module.h:9-10). -/
structure VirtualCamera (H : Type) where
  camera : Cell H
  is_opened : Bool
  deriving DecidableEq

variable {H F A : Type}

/-- The constructor `VirtualCamera::VirtualCamera(int camera_id)`
(camera_module.cpp:7-10). -/
def VirtualCamera.ctor (N : Native H F) (camera_id : Int) : VirtualCamera H :=
  -- camera = new cv::VideoCapture(camera_id);
  let camera : Cell H :=
    { live := some (N.openDevice camera_id), calls := [NativeCall.construct camera_id] }
  -- is_opened = camera->isOpened();
  { camera := { camera with calls := camera.calls ++ [NativeCall.isOpened] },
    is_opened := N.isOpened (N.openDevice camera_id) }

/-- The destructor `VirtualCamera::~VirtualCamera()` (camera_module.cpp:12-17). -/
def VirtualCamera.dtor (N : Native H F) (self : VirtualCamera H) :
    Except Fault (VirtualCamera H) :=
  match self.camera.live with
  | none => Except.error Fault.useAfterFree
  | some h =>
    -- if (camera->isOpened()) { camera->release(); }
    let c1 : Cell H := { live := some h, calls := self.camera.calls ++ [NativeCall.isOpened] }
    let c2 : Cell H :=
      if N.isOpened h then
        { live := some (N.release h), calls := c1.calls ++ [NativeCall.release] }
      else c1
    -- delete camera;
    Except.ok { self with camera := { live := none, calls := c2.calls ++ [NativeCall.destroy] } }

/-- The method `bool VirtualCamera::isOpened()` (camera_module.cpp:19-21). -/
def VirtualCamera.isOpened (self : VirtualCamera H) : Bool :=
  self.is_opened

/-- The method `cv::Mat VirtualCamera::captureFrame()` (camera_module.cpp:23-29):
the returned frame and the object afterwards. -/
def VirtualCamera.captureFrame (N : Native H F) (self : VirtualCamera H) :
    Except Fault (F × VirtualCamera H) :=
  -- cv::Mat frame;
  let frame : F := N.emptyMat
  if self.is_opened then
    -- *camera >> frame;
    match self.camera.live with
    | none => Except.error Fault.useAfterFree
    | some h =>
      let r := N.read h frame
      Except.ok (r.1, { self with
        camera := { live := some r.2, calls := self.camera.calls ++ [NativeCall.read] } })
  else
    Except.ok (frame, self)

/-! ## Sequences of calls on one object -/

/-- One event in the life of an object between construction and teardown: a
call of one of the two public methods, or a change of the native device state
made by the environment. -/
inductive Op (H : Type) where
  | isOpened
  | captureFrame
  | deviceChange (g : H → H)

/-- The object after one event. -/
def VirtualCamera.step (N : Native H F) (self : VirtualCamera H) :
    Op H → Except Fault (VirtualCamera H)
  | Op.isOpened => Except.ok self
  | Op.captureFrame =>
    match self.captureFrame N with
    | Except.ok r => Except.ok r.2
    | Except.error e => Except.error e
  | Op.deviceChange g =>
    Except.ok { self with camera := { self.camera with live := self.camera.live.map g } }

/-- The object after a sequence of events. -/
def VirtualCamera.run (N : Native H F) : List (Op H) → VirtualCamera H →
    Except Fault (VirtualCamera H)
  | [], self => Except.ok self
  | op :: ops, self =>
    match self.step N op with
    | Except.ok self' => VirtualCamera.run N ops self'
    | Except.error e => Except.error e

/-- The scoped release applied twice in a row. -/
def VirtualCamera.dtorTwice (N : Native H F) (self : VirtualCamera H) :
    Except Fault (VirtualCamera H) :=
  match self.dtor N with
  | Except.ok closed => closed.dtor N
  | Except.error e => Except.error e

/-! ## The lifetime of an object -/

/-- A `VirtualCamera` object as its owner holds it: `alive self` between the
end of the constructor and the destructor, `ended calls` once the destructor has
run, where `calls` are the native calls that were made on its capture.  A
destroyed object has no members left to read, so nothing but this record is
kept of it. -/
inductive Lifetime (H : Type) where
  | alive (self : VirtualCamera H)
  | ended (calls : List NativeCall)

/-- A call of `captureFrame()` through the owner.  On a living object it is the
method; on a destroyed object the member call has no defined behaviour, since
camera_module.cpp:25 already reads the member `is_opened` of freed storage. -/
def Lifetime.captureFrame (N : Native H F) : Lifetime H → Except Fault (F × Lifetime H)
  | Lifetime.alive self =>
    match self.captureFrame N with
    | Except.ok r => Except.ok (r.1, Lifetime.alive r.2)
    | Except.error e => Except.error e
  | Lifetime.ended _ => Except.error Fault.useAfterFree

/-- One event through the owner: on a living object the event itself; on a
destroyed object a method call is a use of freed memory, and a change of the
device no longer concerns the object. -/
def Lifetime.step (N : Native H F) : Lifetime H → Op H → Except Fault (Lifetime H)
  | Lifetime.alive self, op =>
    match self.step N op with
    | Except.ok self' => Except.ok (Lifetime.alive self')
    | Except.error e => Except.error e
  | Lifetime.ended calls, Op.deviceChange _ => Except.ok (Lifetime.ended calls)
  | Lifetime.ended _, Op.isOpened => Except.error Fault.useAfterFree
  | Lifetime.ended _, Op.captureFrame => Except.error Fault.useAfterFree

/-- A sequence of events through the owner. -/
def Lifetime.run (N : Native H F) : List (Op H) → Lifetime H → Except Fault (Lifetime H)
  | [], o => Except.ok o
  | op :: ops, o =>
    match Lifetime.step N o op with
    | Except.ok o' => Lifetime.run N ops o'
    | Except.error e => Except.error e

/-- The host values the two bound methods return: `Py_None`, `Py_True`,
`Py_False`. -/
inductive PyObject where
  | none
  | bool (b : Bool)
  deriving DecidableEq

/-- The host object built by `VirtualCamera_new`: its field `camera` points to
the wrapped `VirtualCamera`. -/
structure PyVirtualCamera (H : Type) where
  camera : VirtualCamera H
  deriving DecidableEq

/-- The slot `VirtualCamera_dealloc` (camera_module.cpp:46-49). -/
def VirtualCamera_dealloc (N : Native H F) (self : PyVirtualCamera H) :
    Except Fault (VirtualCamera H) :=
  self.camera.dtor N

/-- The bound method `VirtualCamera_captureFrame` (camera_module.cpp:55-65):
the host value returned and the host object afterwards. -/
def VirtualCamera_captureFrame (N : Native H F) (self : PyVirtualCamera H) :
    Except Fault (PyObject × PyVirtualCamera H) :=
  match self.camera.captureFrame N with
  | Except.error e => Except.error e
  | Except.ok r =>
    if N.empty r.1 then
      Except.ok (PyObject.none, { camera := r.2 })
    else
      Except.ok (PyObject.none, { camera := r.2 })

/-! ## A simulated device, used to instantiate the statements -/

/-- A frame of the simulated device: its dimensions. -/
structure SimMat where
  rows : Nat
  cols : Nat
  deriving DecidableEq

/-- The simulated capture state: whether it is opened, and the frames it will
still deliver. -/
structure SimCap where
  opened : Bool
  pending : List SimMat
  deriving DecidableEq

/-- A native library with a single device, number 0, that delivers two frames
of 640 by 480 and then an empty frame; no other device number can be opened. -/
def simNative : Native SimCap SimMat where
  openDevice := fun camera_id =>
    if camera_id = 0 then { opened := true, pending := [⟨480, 640⟩, ⟨480, 640⟩] }
    else { opened := false, pending := [] }
  isOpened := fun h => h.opened
  read := fun h _ =>
    if h.opened then
      match h.pending with
      | [] => (⟨0, 0⟩, h)
      | f :: fs => (f, { h with pending := fs })
    else (⟨0, 0⟩, h)
  release := fun _ => { opened := false, pending := [] }
  emptyMat := ⟨0, 0⟩
  empty := fun m => m.rows == 0 || m.cols == 0

theorem captureFrame_of_closed (N : Native H F) (self : VirtualCamera H)
    (hclosed : self.is_opened = false) :
    self.captureFrame N = Except.ok (N.emptyMat, self) := by
  simp [VirtualCamera.captureFrame, hclosed]

theorem captureFrame_of_live (N : Native H F) (self : VirtualCamera H) (h : H)
    (hopen : self.is_opened = true) (hlive : self.camera.live = some h) :
    self.captureFrame N =
      Except.ok ((N.read h N.emptyMat).1,
        { camera := { live := some (N.read h N.emptyMat).2,
                      calls := self.camera.calls ++ [NativeCall.read] },
          is_opened := self.is_opened }) := by
  simp [VirtualCamera.captureFrame, hopen, hlive]

theorem captureFrame_of_freed (N : Native H F) (self : VirtualCamera H)
    (hopen : self.is_opened = true) (hfreed : self.camera.live = none) :
    self.captureFrame N = Except.error Fault.useAfterFree := by
  simp [VirtualCamera.captureFrame, hopen, hfreed]

/-- One event on an object whose handle has not been freed returns, keeps the
handle unfreed and keeps the cached flag. -/
theorem step_of_live (N : Native H F) (self : VirtualCamera H) (op : Op H)
    (hlive : self.camera.live.isSome = true) :
    ∃ self', self.step N op = Except.ok self' ∧ self'.is_opened = self.is_opened ∧
      self'.camera.live.isSome = true := by
  obtain ⟨h, hh⟩ := Option.isSome_iff_exists.mp hlive
  cases op with
  | isOpened => exact ⟨self, rfl, rfl, hlive⟩
  | captureFrame =>
    cases hopen : self.is_opened with
    | false =>
      refine ⟨self, ?_, hopen.symm ▸ hopen, hlive⟩
      simp [VirtualCamera.step, captureFrame_of_closed N self hopen]
    | true =>
      refine ⟨{ camera := { live := some (N.read h N.emptyMat).2,
                            calls := self.camera.calls ++ [NativeCall.read] },
                is_opened := self.is_opened }, ?_, hopen, rfl⟩
      simp only [VirtualCamera.step, captureFrame_of_live N self h hopen hh]
  | deviceChange g =>
    refine ⟨_, rfl, rfl, ?_⟩
    simp [hh]

/-- A sequence of events on an object whose handle has not been freed returns,
keeps the handle unfreed and keeps the cached flag. -/
theorem run_of_live (N : Native H F) (ops : List (Op H)) :
    ∀ self : VirtualCamera H, self.camera.live.isSome = true →
      ∃ self', VirtualCamera.run N ops self = Except.ok self' ∧
        self'.is_opened = self.is_opened ∧ self'.camera.live.isSome = true := by
  induction ops with
  | nil => intro self hlive; exact ⟨self, rfl, rfl, hlive⟩
  | cons op ops ih =>
    intro self hlive
    obtain ⟨s1, hs1, hflag1, hlive1⟩ := step_of_live N self op hlive
    obtain ⟨s2, hs2, hflag2, hlive2⟩ := ih s1 hlive1
    refine ⟨s2, ?_, hflag2.trans hflag1, hlive2⟩
    simp only [VirtualCamera.run, hs1, hs2]

/-- Whatever the state of the handle, an event that returns keeps the cached
flag. -/
theorem step_is_opened (N : Native H F) (self self' : VirtualCamera H) (op : Op H)
    (hstep : self.step N op = Except.ok self') : self'.is_opened = self.is_opened := by
  cases op with
  | isOpened =>
    simp only [VirtualCamera.step, Except.ok.injEq] at hstep
    rw [← hstep]
  | captureFrame =>
    cases hopen : self.is_opened with
    | false =>
      simp only [VirtualCamera.step, captureFrame_of_closed N self hopen,
        Except.ok.injEq] at hstep
      rw [← hstep]
      exact hopen
    | true =>
      cases hlive : self.camera.live with
      | none =>
        simp only [VirtualCamera.step, captureFrame_of_freed N self hopen hlive] at hstep
        cases hstep
      | some h =>
        simp only [VirtualCamera.step, captureFrame_of_live N self h hopen hlive,
          Except.ok.injEq] at hstep
        rw [← hstep]
        exact hopen
  | deviceChange g =>
    simp only [VirtualCamera.step, Except.ok.injEq] at hstep
    rw [← hstep]

theorem dtor_of_live (N : Native H F) (self : VirtualCamera H) (h : H)
    (hlive : self.camera.live = some h) :
    self.dtor N = Except.ok
      { camera :=
          { live := none,
            calls := self.camera.calls ++ [NativeCall.isOpened] ++
              (if N.isOpened h then [NativeCall.release] else []) ++ [NativeCall.destroy] },
        is_opened := self.is_opened } := by
  cases hn : N.isOpened h <;> simp [VirtualCamera.dtor, hlive, hn]

theorem dtor_of_freed (N : Native H F) (self : VirtualCamera H)
    (hfreed : self.camera.live = none) :
    self.dtor N = Except.error Fault.useAfterFree := by
  simp [VirtualCamera.dtor, hfreed]

/-- The host method returns `Py_None` with whatever frame the wrapped method
returned. -/
theorem host_captureFrame_of_ok (N : Native H F) (self : PyVirtualCamera H) (frame : F)
    (self' : VirtualCamera H) (hcap : self.camera.captureFrame N = Except.ok (frame, self')) :
    VirtualCamera_captureFrame N self = Except.ok (PyObject.none, { camera := self' }) := by
  simp only [VirtualCamera_captureFrame, hcap]
  split <;> rfl

/-- On an object that owns its handle, or whose cached flag is false, the
wrapped `captureFrame()` returns. -/
theorem captureFrame_returns (N : Native H F) (self : VirtualCamera H)
    (hstate : self.camera.live.isSome = true ∨ self.is_opened = false) :
    ∃ frame self', self.captureFrame N = Except.ok (frame, self') := by
  rcases Bool.eq_false_or_eq_true self.is_opened with hopen | hclosed
  · rcases hstate with hlive | hclosed
    · obtain ⟨h, hh⟩ := Option.isSome_iff_exists.mp hlive
      exact ⟨_, _, captureFrame_of_live N self h hopen hh⟩
    · rw [hclosed] at hopen
      cases hopen
  · exact ⟨_, _, captureFrame_of_closed N self hclosed⟩

/-! ## The claims -/

/-- C1: right after `VirtualCamera(deviceId)`, `isOpened()` returns exactly what
the native validity check `isOpened` answered on the handle obtained from
`openDevice deviceId` during construction; the constructor made exactly that
one acquisition and that one check. -/
theorem C1_isOpened_after_construction (N : Native H F) (camera_id : Int) :
    (VirtualCamera.ctor N camera_id).isOpened = N.isOpened (N.openDevice camera_id) ∧
      (VirtualCamera.ctor N camera_id).camera =
        { live := some (N.openDevice camera_id),
          calls := [NativeCall.construct camera_id, NativeCall.isOpened] } :=
  ⟨rfl, rfl⟩

/-- C2: when the cached flag `is_opened` is false, `captureFrame()` returns the
default-constructed frame without fault and leaves the whole object, native
handle and list of native calls included, as it was: no read is made. -/
theorem C2_captureFrame_closed (N : Native H F) (self : VirtualCamera H)
    (hclosed : self.is_opened = false) :
    self.captureFrame N = Except.ok (N.emptyMat, self) :=
  captureFrame_of_closed N self hclosed

/-- C2 instantiated: the simulated device -1 does not open, and `captureFrame()`
on the object constructed for it returns the empty frame and changes nothing. -/
theorem C2_captureFrame_closed_witness :
    (VirtualCamera.ctor simNative (-1)).is_opened = false ∧
      (VirtualCamera.ctor simNative (-1)).captureFrame simNative =
        Except.ok (simNative.emptyMat, VirtualCamera.ctor simNative (-1)) :=
  ⟨by decide, C2_captureFrame_closed simNative (VirtualCamera.ctor simNative (-1)) (by decide)⟩

/-- C3: when the cached flag `is_opened` is true (and the object still owns its
handle `h`), `captureFrame()` returns without fault the very frame the native
read on `h` yields, the handle is left in the state that read leaves it in,
exactly one native call, a read, is added to the calls made, and the returned
frame is empty iff the frame read is empty. -/
theorem C3_captureFrame_opened (N : Native H F) (self : VirtualCamera H) (h : H)
    (hopen : self.is_opened = true) (hlive : self.camera.live = some h) :
    ∃ frame self', self.captureFrame N = Except.ok (frame, self') ∧
      frame = (N.read h N.emptyMat).1 ∧
      self'.camera.live = some (N.read h N.emptyMat).2 ∧
      self'.camera.calls = self.camera.calls ++ [NativeCall.read] ∧
      self'.is_opened = self.is_opened ∧
      (N.empty frame = true ↔ N.empty (N.read h N.emptyMat).1 = true) :=
  ⟨_, _, captureFrame_of_live N self h hopen hlive, rfl, rfl, rfl, rfl, Iff.rfl⟩

/-- C3 instantiated on the simulated device 0, which opens. -/
theorem C3_captureFrame_opened_witness :
    (VirtualCamera.ctor simNative 0).is_opened = true ∧
      (VirtualCamera.ctor simNative 0).camera.live = some (simNative.openDevice 0) ∧
      ∃ frame self', (VirtualCamera.ctor simNative 0).captureFrame simNative =
          Except.ok (frame, self') ∧
        frame = (simNative.read (simNative.openDevice 0) simNative.emptyMat).1 ∧
        self'.camera.live =
          some (simNative.read (simNative.openDevice 0) simNative.emptyMat).2 ∧
        self'.camera.calls =
          (VirtualCamera.ctor simNative 0).camera.calls ++ [NativeCall.read] ∧
        self'.is_opened = (VirtualCamera.ctor simNative 0).is_opened ∧
        (simNative.empty frame = true ↔
          simNative.empty
            (simNative.read (simNative.openDevice 0) simNative.emptyMat).1 = true) :=
  ⟨by decide, rfl,
    C3_captureFrame_opened simNative (VirtualCamera.ctor simNative 0)
      (simNative.openDevice 0) (by decide) rfl⟩

/-- C4: for every device number and every finite sequence of `isOpened()` calls,
`captureFrame()` calls and arbitrary changes of the native device state, the
sequence runs to its end on the freshly constructed object and the cached flag
still has the value computed at construction, so `isOpened()` still returns
true when the acquisition succeeded; moreover every single event, and the
destructor, leave the cached flag as it was whenever they return. -/
theorem C4_is_opened_preserved (N : Native H F) (camera_id : Int) (ops : List (Op H)) :
    (∃ self', VirtualCamera.run N ops (VirtualCamera.ctor N camera_id) = Except.ok self' ∧
        self'.is_opened = (VirtualCamera.ctor N camera_id).is_opened ∧
        self'.isOpened = N.isOpened (N.openDevice camera_id) ∧
        (N.isOpened (N.openDevice camera_id) = true → self'.isOpened = true)) ∧
      (∀ (self self' : VirtualCamera H) (op : Op H),
        self.step N op = Except.ok self' → self'.is_opened = self.is_opened) ∧
      (∀ self self' : VirtualCamera H,
        self.dtor N = Except.ok self' → self'.is_opened = self.is_opened) := by
  refine ⟨?_, ?_, ?_⟩
  · obtain ⟨s, hrun, hflag, _⟩ := run_of_live N ops (VirtualCamera.ctor N camera_id) rfl
    exact ⟨s, hrun, hflag, hflag, fun hacq => hflag.trans hacq⟩
  · intro self self' op hstep
    exact step_is_opened N self self' op hstep
  · intro self self' hd
    cases hlive : self.camera.live with
    | none => rw [dtor_of_freed N self hlive] at hd; cases hd
    | some h =>
      rw [dtor_of_live N self h hlive, Except.ok.injEq] at hd
      rw [← hd]

/-- C4 instantiated: on the simulated device 0, after a capture, the loss of the
device, a status query and another capture, `isOpened()` is still true. -/
theorem C4_is_opened_preserved_witness :
    simNative.isOpened (simNative.openDevice 0) = true ∧
      ∃ self', VirtualCamera.run simNative
          [Op.captureFrame, Op.deviceChange (fun _ => { opened := false, pending := [] }),
            Op.isOpened, Op.captureFrame]
          (VirtualCamera.ctor simNative 0) = Except.ok self' ∧
        self'.isOpened = true := by
  refine ⟨by decide, ?_⟩
  obtain ⟨⟨s, hrun, _, _, htrue⟩, _⟩ := C4_is_opened_preserved simNative 0
    [Op.captureFrame, Op.deviceChange (fun _ => { opened := false, pending := [] }),
      Op.isOpened, Op.captureFrame]
  exact ⟨s, hrun, htrue (by decide)⟩

/-- C5: for every device number whose native open does not yield a valid
handle, the constructed object has `isOpened() == false` and `captureFrame()`
returns the default-constructed (empty) frame without fault and with the object,
its list of native calls included, unchanged: the native read is never
entered. -/
theorem C5_invalid_device (N : Native H F) (camera_id : Int)
    (hinvalid : N.isOpened (N.openDevice camera_id) = false) :
    (VirtualCamera.ctor N camera_id).isOpened = false ∧
      (VirtualCamera.ctor N camera_id).captureFrame N =
        Except.ok (N.emptyMat, VirtualCamera.ctor N camera_id) ∧
      NativeCall.read ∉ (VirtualCamera.ctor N camera_id).camera.calls :=
  ⟨hinvalid, captureFrame_of_closed N _ hinvalid, by simp [VirtualCamera.ctor]⟩

/-- C5 instantiated at the device number -1 of the simulated library. -/
theorem C5_invalid_device_witness :
    simNative.isOpened (simNative.openDevice (-1)) = false ∧
      (VirtualCamera.ctor simNative (-1)).isOpened = false ∧
      (VirtualCamera.ctor simNative (-1)).captureFrame simNative =
        Except.ok (simNative.emptyMat, VirtualCamera.ctor simNative (-1)) ∧
      NativeCall.read ∉ (VirtualCamera.ctor simNative (-1)).camera.calls :=
  ⟨by decide, C5_invalid_device simNative (-1) (by decide)⟩

/-- C7 (as stated, refuted): on the simulated device 0 a second application of
the scoped release does not return: it uses the handle the first application
has freed, so two applications do not yield the state one application
yields. -/
theorem C7_counterexample :
    (VirtualCamera.ctor simNative 0).dtorTwice simNative = Except.error Fault.useAfterFree ∧
      (VirtualCamera.ctor simNative 0).dtorTwice simNative ≠
        (VirtualCamera.ctor simNative 0).dtor simNative := by
  have htwice : (VirtualCamera.ctor simNative 0).dtorTwice simNative =
      Except.error Fault.useAfterFree := rfl
  refine ⟨htwice, ?_⟩
  intro heq
  rw [htwice, dtor_of_live simNative _ (simNative.openDevice 0) rfl] at heq
  cases heq

/-- C7 (amended): applied to an object that owns its handle `h`, the scoped
release returns without fault, asks the native layer once whether `h` is
opened, calls the native release exactly once if it is and not at all if it is
not, then frees the handle exactly once, and keeps the cached flag; it is not
idempotent: applied again, it uses the freed handle and does not return.  The
host slot `VirtualCamera_dealloc` is one such application. -/
theorem C7_release_once (N : Native H F) (self : VirtualCamera H) (h : H)
    (hlive : self.camera.live = some h) :
    ∃ closed, self.dtor N = Except.ok closed ∧
      closed.camera.live = none ∧
      closed.is_opened = self.is_opened ∧
      closed.camera.calls = self.camera.calls ++ [NativeCall.isOpened] ++
        (if N.isOpened h then [NativeCall.release] else []) ++ [NativeCall.destroy] ∧
      closed.camera.calls.count NativeCall.release =
        self.camera.calls.count NativeCall.release + (if N.isOpened h then 1 else 0) ∧
      closed.camera.calls.count NativeCall.destroy =
        self.camera.calls.count NativeCall.destroy + 1 ∧
      closed.dtor N = Except.error Fault.useAfterFree ∧
      self.dtorTwice N = Except.error Fault.useAfterFree ∧
      VirtualCamera_dealloc N { camera := self } = Except.ok closed := by
  refine ⟨_, dtor_of_live N self h hlive, rfl, rfl, rfl, ?_, ?_, dtor_of_freed N _ rfl, ?_,
    dtor_of_live N self h hlive⟩
  · cases N.isOpened h <;> simp [List.count_cons]
  · cases N.isOpened h <;> simp [List.count_cons]
  · simp only [VirtualCamera.dtorTwice, dtor_of_live N self h hlive]
    exact dtor_of_freed N _ rfl

/-- C7 (amended) instantiated on the simulated device 0: one release call, one
free, and a second application that does not return. -/
theorem C7_release_once_witness :
    (VirtualCamera.ctor simNative 0).camera.live = some (simNative.openDevice 0) ∧
      ∃ closed, (VirtualCamera.ctor simNative 0).dtor simNative = Except.ok closed ∧
        closed.camera.calls =
          [NativeCall.construct 0, NativeCall.isOpened, NativeCall.isOpened,
            NativeCall.release, NativeCall.destroy] ∧
        closed.dtor simNative = Except.error Fault.useAfterFree := by
  obtain ⟨closed, hd, _, _, hcalls, _, _, htwice, _, _⟩ :=
    C7_release_once simNative (VirtualCamera.ctor simNative 0) (simNative.openDevice 0) rfl
  exact ⟨rfl, closed, hd, by rw [hcalls]; decide, htwice⟩

/-- C9 (as stated, refuted): on the simulated device 0, which opens and whose
first read yields a frame of 480 rows and 640 columns, the wrapped
`captureFrame()` on the fresh object returns that non-empty frame, yet the
bound `captureFrame` returns `Py_None` to the host caller. -/
theorem C9_counterexample :
    simNative.isOpened (simNative.openDevice 0) = true ∧
      ∃ frame self', (VirtualCamera.ctor simNative 0).captureFrame simNative =
          Except.ok (frame, self') ∧
        simNative.empty frame = false ∧ 0 < frame.rows ∧ 0 < frame.cols ∧
        VirtualCamera_captureFrame simNative { camera := VirtualCamera.ctor simNative 0 } =
          Except.ok (PyObject.none, { camera := self' }) :=
  ⟨by decide, ⟨480, 640⟩, _, rfl, by decide, by decide, by decide, rfl⟩

/-- C9 (amended): for every device number whose acquisition succeeds and whose
native read yields a non-empty frame, a single `captureFrame()` on the freshly
constructed object returns without fault exactly the frame that read yielded,
which is non-empty, after exactly one read; the bound `captureFrame` makes that
same call and returns `Py_None` to the host caller. -/
theorem C9_captureFrame_fresh (N : Native H F) (camera_id : Int)
    (hacquired : N.isOpened (N.openDevice camera_id) = true)
    (hnonempty : N.empty (N.read (N.openDevice camera_id) N.emptyMat).1 = false) :
    ∃ frame self', (VirtualCamera.ctor N camera_id).captureFrame N =
        Except.ok (frame, self') ∧
      frame = (N.read (N.openDevice camera_id) N.emptyMat).1 ∧
      N.empty frame = false ∧
      self'.camera.calls =
        [NativeCall.construct camera_id, NativeCall.isOpened, NativeCall.read] ∧
      VirtualCamera_captureFrame N { camera := VirtualCamera.ctor N camera_id } =
        Except.ok (PyObject.none, { camera := self' }) := by
  have hcap := captureFrame_of_live N (VirtualCamera.ctor N camera_id)
    (N.openDevice camera_id) hacquired rfl
  exact ⟨_, _, hcap, rfl, hnonempty, rfl,
    host_captureFrame_of_ok N { camera := VirtualCamera.ctor N camera_id } _ _ hcap⟩

/-- C9 (amended) instantiated on the simulated device 0: the frame of 480 rows
and 640 columns is returned by the wrapped method. -/
theorem C9_captureFrame_fresh_witness :
    simNative.isOpened (simNative.openDevice 0) = true ∧
      simNative.empty (simNative.read (simNative.openDevice 0) simNative.emptyMat).1 = false ∧
      ∃ frame self', (VirtualCamera.ctor simNative 0).captureFrame simNative =
          Except.ok (frame, self') ∧
        frame = ⟨480, 640⟩ ∧
        VirtualCamera_captureFrame simNative { camera := VirtualCamera.ctor simNative 0 } =
          Except.ok (PyObject.none, { camera := self' }) := by
  obtain ⟨frame, self', hcap, hframe, _, _, hhost⟩ :=
    C9_captureFrame_fresh simNative 0 (by decide) (by decide)
  exact ⟨by decide, by decide, frame, self', hcap, by rw [hframe]; rfl, hhost⟩

/-- C10: whatever frame the wrapped `captureFrame()` returns, empty or not, the
bound `VirtualCamera_captureFrame` returns `Py_None`; and it does return, with
`Py_None`, on every object that owns its handle or whose cached flag is
false. -/
theorem C10_host_captureFrame_constant (N : Native H F) (self : PyVirtualCamera H) :
    (∀ frame self', self.camera.captureFrame N = Except.ok (frame, self') →
        VirtualCamera_captureFrame N self = Except.ok (PyObject.none, { camera := self' })) ∧
      (∀ value self', VirtualCamera_captureFrame N self = Except.ok (value, self') →
        value = PyObject.none) ∧
      ((self.camera.camera.live.isSome = true ∨ self.camera.is_opened = false) →
        ∃ self', VirtualCamera_captureFrame N self = Except.ok (PyObject.none, self')) := by
  refine ⟨host_captureFrame_of_ok N self, ?_, ?_⟩
  · intro value self' hhost
    cases hcap : self.camera.captureFrame N with
    | error e =>
      simp only [VirtualCamera_captureFrame, hcap] at hhost
      cases hhost
    | ok r =>
      rw [host_captureFrame_of_ok N self r.1 r.2 hcap, Except.ok.injEq, Prod.mk.injEq] at hhost
      exact hhost.1.symm
  · intro hstate
    obtain ⟨frame, self', hcap⟩ := captureFrame_returns N self.camera hstate
    exact ⟨_, host_captureFrame_of_ok N self frame self' hcap⟩

/-- C10 instantiated on the simulated device 0: the wrapped method returns a frame
of 480 rows and 640 columns, the bound method returns `Py_None`. -/
theorem C10_host_captureFrame_constant_witness :
    (VirtualCamera.ctor simNative 0).captureFrame simNative =
        Except.ok (⟨480, 640⟩,
          { camera := { live := some { opened := true, pending := [⟨480, 640⟩] },
                        calls := [NativeCall.construct 0, NativeCall.isOpened,
                          NativeCall.read] },
            is_opened := true }) ∧
      VirtualCamera_captureFrame simNative { camera := VirtualCamera.ctor simNative 0 } =
        Except.ok (PyObject.none,
          { camera :=
            { camera := { live := some { opened := true, pending := [⟨480, 640⟩] },
                          calls := [NativeCall.construct 0, NativeCall.isOpened,
                            NativeCall.read] },
              is_opened := true } }) :=
  ⟨rfl, (C10_host_captureFrame_constant simNative
    { camera := VirtualCamera.ctor simNative 0 }).1 _ _ rfl⟩

end CameraModule
